import Mathlib

/-!
Formal model of the MyAgriBot Telegram bot (`app.py`).

The development shallowly embeds the pure logic of the bot:

* Python string primitives used by the code (`str.strip`, `str.lower`,
  `str.replace`, `str.startswith`) as executable functions on `String`;
* the synthetic mandi (market) dataset generator, the district filter
  `get_mandi_data_by_district` and the formatter `format_mandi_data_simple`;
* the two external-lookup adapters `get_crop_info` and
  `get_detailed_weather`, with the HTTP exchange modelled by an oracle
  value (`failure` = transport error or non-success status raised by
  `raise_for_status`, `success` = a parsed JSON body);
* the Telegram handlers `button_click` and `handle_message` as functions
  from the per-user conversation state (the optional string stored under
  `context.user_data['state']`) and the incoming payload to the new state
  plus a trace of observable effects (replies, message edits, adapter and
  query invocations).

Numeric JSON fields of the weather body are modelled by the text they
interpolate to, since the code only ever embeds them into an f-string.
-/

/-! ## Python string primitives -/

/-- Whitespace as recognised by Python's `str.strip` on ASCII text. -/
def pyIsSpace (c : Char) : Bool :=
  c == ' ' || c == '\t' || c == '\n' || c == '\r' || c == '\x0b' || c == '\x0c'

/-- Python `s.strip()`: drop leading and trailing whitespace. -/
def pyStrip (s : String) : String :=
  ⟨((s.data.dropWhile pyIsSpace).reverse.dropWhile pyIsSpace).reverse⟩

/-- ASCII lowering of one character, as Python `str.lower` acts on ASCII. -/
def pyLowerChar (c : Char) : Char :=
  if 65 ≤ c.toNat ∧ c.toNat ≤ 90 then Char.ofNat (c.toNat + 32) else c

/-- Python `s.lower()` (districts and queries in this program are ASCII). -/
def pyLower (s : String) : String := ⟨s.data.map pyLowerChar⟩

/-- Replace every non-overlapping occurrence of `pat` in the tail of the
fourth argument, scanning left to right; the fuel is an upper bound on the
number of steps and is set to the length of the scanned list. -/
def replaceListFuel : Nat → List Char → List Char → List Char → List Char
  | 0, _, _, s => s
  | _, _, _, [] => []
  | fuel+1, pat, rep, c :: rest =>
    if pat.isPrefixOf (c :: rest) then
      rep ++ replaceListFuel fuel pat rep ((c :: rest).drop pat.length)
    else
      c :: replaceListFuel fuel pat rep rest

/-- Python `s.replace(pat, rep)`: every non-overlapping occurrence, left to
right; an empty pattern inserts `rep` before every character and at the end. -/
def pyReplace (s pat rep : String) : String :=
  if pat.data.isEmpty then
    ⟨rep.data ++ s.data.flatMap (fun c => c :: rep.data)⟩
  else
    ⟨replaceListFuel s.data.length pat.data rep.data s.data⟩

/-- Python `s.startswith(pre)`. -/
def pyStartsWith (s pre : String) : Bool := pre.data.isPrefixOf s.data

/-! ## Sample mandi dataset (`records` / `MANDI_DATA` in `app.py`) -/

/-- The fixed district list of `app.py`. -/
def districts : List String :=
  ["Chennai", "Nagercoil (Kanniyakumari)", "Coimbatore", "Madurai",
   "Salem", "Erode", "Tiruchirappalli", "Tirunelveli", "Tiruppur",
   "Vellore", "Villupuram", "Virudhunagar", "Kanchipuram", "Karur", "Namakkal"]

/-- The fixed market list of `app.py`. -/
def markets : List String := ["Market A", "Market B", "Market C", "Market D", "Market E"]

/-- The fixed commodity list of `app.py`. -/
def commodities : List String :=
  ["Tomato", "Potato", "Tapioca", "Onion", "Rice", "Wheat", "Cucumber", "Carrot", "Capsicum"]

/-- The fixed variety list of `app.py`. -/
def varieties : List String := ["Local", "Hybrid", "Organic"]

/-- One record of the synthetic dataset (a `rec` dict built by the
generation loop of `app.py`). -/
structure MarketRecord where
  state : String
  district : String
  market : String
  commodity : String
  variety : String
  arrival_date : String
  min_price : Nat
  max_price : Nat
  modal_price : Nat
deriving DecidableEq, Repr

/-- One iteration's random draws: `random.choice` on the four lists and
`random.randint` on the three price ranges. -/
structure Draw where
  district : String
  market : String
  commodity : String
  variety : String
  min_price : Nat
  max_price : Nat
  modal_price : Nat
deriving DecidableEq, Repr

/-- The values `random.choice` / `random.randint` can actually return for
one record of the generation loop in `app.py`. -/
def admissibleDraw (d : Draw) : Prop :=
  d.district ∈ districts ∧ d.market ∈ markets ∧ d.commodity ∈ commodities ∧
  d.variety ∈ varieties ∧
  1000 ≤ d.min_price ∧ d.min_price ≤ 5000 ∧
  5001 ≤ d.max_price ∧ d.max_price ≤ 10000 ∧
  3000 ≤ d.modal_price ∧ d.modal_price ≤ 8000

instance (d : Draw) : Decidable (admissibleDraw d) := by
  unfold admissibleDraw; infer_instance

/-- The record built from one iteration's draws, with the constant `state`
and `arrival_date` fields of `app.py`. -/
def mkRecord (d : Draw) : MarketRecord :=
  { state := "Tamil Nadu", district := d.district, market := d.market,
    commodity := d.commodity, variety := d.variety, arrival_date := "18/03/2025",
    min_price := d.min_price, max_price := d.max_price, modal_price := d.modal_price }

/-- The generation loop: one record per draw (`for i in range(200)` uses a
list of 200 draws). -/
def generateRecords (draws : List Draw) : List MarketRecord := draws.map mkRecord

/-- The `{"records": ...}` dict wrapping a record list (`MANDI_DATA` and the
return value of `get_mandi_data_by_district`). -/
structure MandiData where
  records : List MarketRecord
deriving DecidableEq, Repr

/-! ## Market query (`get_mandi_data_by_district`, `format_mandi_data_simple`) -/

/-- `get_mandi_data_by_district` of `app.py`: keep the records whose
stripped, lowered district equals the stripped, lowered query. -/
def get_mandi_data_by_district (data : MandiData) (district : String) : MandiData :=
  ⟨data.records.filter
    (fun rec => pyLower (pyStrip rec.district) == pyLower (pyStrip district))⟩

/-- The header f-string of a non-empty summary, as a function of the
district name taken from the first record. -/
def mandiHeader (district : String) : String :=
  "📊 *Mandi Prices for " ++ district ++ "*\n(Showing up to 5 records)\n\n"

/-- The f-string block appended by the loop body for one record of the
summary (Python concatenates the adjacent literals into one string before
the `+=`). -/
def mandiBlock (rec : MarketRecord) : String :=
  "🌾 *Commodity:* " ++ rec.commodity ++ " (" ++ rec.variety ++ ")\n"
    ++ "📍 *Market:* " ++ rec.market ++ "\n"
    ++ "💰 *Price (Min/Modal/Max):* ₹" ++ toString rec.min_price
    ++ " / ₹" ++ toString rec.modal_price ++ " / ₹" ++ toString rec.max_price ++ "\n"
    ++ "📅 *Arrival Date:* " ++ rec.arrival_date ++ "\n"
    ++ "-----------------\n"

/-- The overflow-note f-string of the summary, as a function of the omitted
count `len(records) - 5`. -/
def mandiMoreNote (omitted : Nat) : String :=
  "\n_...and " ++ toString omitted ++ " more records exist for this district._"

/-- `format_mandi_data_simple` of `app.py`: fixed no-data message when the
record list is empty; otherwise the header naming the first record's
district, a `+=` loop over the first five records appending `mandiBlock`,
the overflow note when more than five records exist, and a final
`strip()`. -/
def format_mandi_data_simple (data : MandiData) : String :=
  match data.records with
  | [] => "❌ No data found for this district."
  | r0 :: _ =>
    let records := data.records
    let message := mandiHeader r0.district
    let message := (records.take 5).foldl (fun m rec => m ++ mandiBlock rec) message
    let message := if 5 < records.length then
        message ++ mandiMoreNote (records.length - 5)
      else message
    pyStrip message

/-! ## Crop info adapter (`get_crop_info`) -/

/-- A JSON dict entry as seen through Python's `dict.get`: the key may be
absent, present with value `null`, or present with a string value. -/
inductive JField where
  | absent
  | null
  | str (s : String)
deriving DecidableEq, Repr

/-- A Python value produced by `crop.get(key, default)`: either `None` or a
string (the default is a string, so an absent key yields a string). -/
inductive PyVal where
  | pyNone
  | str (s : String)
deriving DecidableEq, Repr

/-- Python `crop.get(key, default)` on a `Field`. -/
def dictGet (f : JField) (default : String) : PyVal :=
  match f with
  | .absent => .str default
  | .null => .pyNone
  | .str s => .str s

/-- Python f-string interpolation of such a value: `None` prints as
`"None"`. -/
def PyVal.interp : PyVal → String
  | .pyNone => "None"
  | .str s => s

/-- Python `x or default` for such a value: `None` and the empty string are
falsy and replaced by the default. -/
def PyVal.orDefault : PyVal → String → String
  | .pyNone, d => d
  | .str s, d => if s = "" then d else s

/-- The `attributes` dict of one crop item in the crop-API response body. -/
structure CropAttrs where
  name : JField
  description : JField
  sun_requirements : JField
  sowing_method : JField
deriving DecidableEq, Repr

/-- Outcome of the crop-API HTTP exchange: `failure` is a transport error
or the non-success status raised by `response.raise_for_status()`;
`success` carries the parsed `data.get('data', [])` list (an absent `data`
key is the empty list). -/
inductive CropHttp where
  | failure
  | success (crops : List CropAttrs)
deriving DecidableEq, Repr

/-- `get_crop_info` of `app.py` as a function of the HTTP outcome. -/
def get_crop_info (outcome : CropHttp) : String :=
  match outcome with
  | .failure =>
    "❌ Failed to fetch crop information. The API might be down or your request failed."
  | .success crops =>
    match crops with
    | [] => "❌ No information found for this crop."
    | crop :: _ =>
      let name := dictGet crop.name "N/A"
      let description := dictGet crop.description "N/A"
      let sun_requirements := dictGet crop.sun_requirements "N/A"
      let sowing_method := dictGet crop.sowing_method "N/A"
      "🌾 *" ++ name.interp ++ "*\n\n"
        ++ "📌 *Description:* " ++ description.orDefault "Not available." ++ "\n"
        ++ "☀️ *Sun Requirements:* " ++ sun_requirements.orDefault "Not available." ++ "\n"
        ++ "🌱 *Sowing Method:* " ++ sowing_method.orDefault "Not available."

/-- Rendering of a crop field as the spec's sentence describes it: "Not
available." substituted for any missing or empty field. -/
def specFieldText (f : JField) : String :=
  match f with
  | .absent => "Not available."
  | .null => "Not available."
  | .str s => if s = "" then "Not available." else s

/-- Rendering the code actually applies to the `name` field: the `.get`
default `"N/A"` when the key is absent, `"None"` for a null value, the raw
string otherwise. -/
def renderName (f : JField) : String :=
  match f with
  | .absent => "N/A"
  | .null => "None"
  | .str s => s

/-- Rendering the code actually applies to the three optional detail
fields: `"N/A"` when the key is absent (the `.get` default is truthy), and
"Not available." only for a null or empty present value. -/
def renderDetail (f : JField) : String :=
  match f with
  | .absent => "N/A"
  | .null => "Not available."
  | .str s => if s = "" then "Not available." else s

/-! ## Weather adapter (`get_detailed_weather`) -/

/-- One entry of `data["forecast"]["forecastday"]`.  Numeric JSON values
are modelled by their interpolated text. -/
structure ForecastDay where
  date : String
  daily_chance_of_rain : String
  sunrise : String
  sunset : String
deriving DecidableEq, Repr

/-- The parsed weather-API response body (the fields the code reads). -/
structure WeatherBody where
  location_name : String
  region : String
  temp_c : String
  condition_text : String
  wind_kph : String
  humidity : String
  uv : String
  forecastday : List ForecastDay
deriving DecidableEq, Repr

/-- Outcome of the weather-API HTTP exchange, as for `CropHttp`. -/
inductive WeatherHttp where
  | failure
  | success (body : WeatherBody)
deriving DecidableEq, Repr

/-- `get_detailed_weather` of `app.py` as a function of the HTTP outcome.
`none` models the uncaught `IndexError` the code would raise on a success
body whose forecast-day list is empty (the `[0]` index); every other case
returns the formatted string the code returns. -/
def get_detailed_weather (outcome : WeatherHttp) : Option String :=
  match outcome with
  | .failure => some "❌ Unable to fetch weather. Please check the city name or try again."
  | .success data =>
    match data.forecastday with
    | [] => none
    | day0 :: _ =>
      let forecast_msg := data.forecastday.foldl
        (fun m day =>
          m ++ "  - `" ++ day.date ++ "`: *" ++ day.daily_chance_of_rain ++ "%* chance\n")
        "🌧️ *3-Day Rain Forecast:*\n"
      some ("🌍 *Weather for " ++ data.location_name ++ ", " ++ data.region ++ "*\n\n"
        ++ "🌡️ *Temperature:* " ++ data.temp_c ++ "°C\n"
        ++ "☁️ *Condition:* " ++ data.condition_text ++ "\n"
        ++ "💨 *Wind Speed:* " ++ data.wind_kph ++ " km/h\n"
        ++ "💧 *Humidity:* " ++ data.humidity ++ "%\n"
        ++ "☀️ *Sunrise:* " ++ day0.sunrise ++ " | 🌅 *Sunset:* " ++ day0.sunset ++ "\n"
        ++ "🔥 *UV Index:* " ++ data.uv ++ "\n\n"
        ++ forecast_msg)

/-! ## Telegram handlers (`button_click`, `handle_message`) -/

/-- An inline keyboard button: label and callback payload. -/
structure Button where
  label : String
  callback_data : String
deriving DecidableEq, Repr

/-- An inline keyboard: rows of buttons. -/
abbrev Keyboard := List (List Button)

/-- Observable effects of one handler run, in order: answering the callback
query, editing the triggering message, replying with a new message, and the
instrumented call events for the two adapters and the mandi district query. -/
inductive Effect where
  | answered
  | edited (text : String) (kb : Option Keyboard)
  | replied (text : String) (kb : Option Keyboard)
  | invokedCrop (query : String)
  | invokedWeather (query : String)
  | invokedMandi (district : String)
deriving DecidableEq, Repr

/-- The main-menu keyboard built by `show_main_menu`. -/
def mainMenuKeyboard : Keyboard :=
  [[⟨"🌾 Get Crop Info", "crop_info"⟩],
   [⟨"☀️ Get Weather Info", "weather_info"⟩],
   [⟨"📊 Mandi Prices", "mandi_prices_menu"⟩],
   [⟨"📞 Contact Support", "contact_support"⟩]]

/-- The main-menu text of `show_main_menu`. -/
def mainMenuText : String := "📍 *Main Menu*\n\nHow can I assist you today?"

/-- `show_main_menu` reached from a button click (`update.callback_query`
set): edits the message in place. -/
def show_main_menu_from_callback : List Effect :=
  [.edited mainMenuText (some mainMenuKeyboard)]

/-- `show_main_menu` reached from a plain message: replies with a new
message. -/
def show_main_menu_from_message : List Effect :=
  [.replied mainMenuText (some mainMenuKeyboard)]

/-- The district keyboard built by `show_mandi_districts_menu`: one row per
district, payload `mandi_district_` followed by the district name, and a
back row. -/
def districtMenuKeyboard : Keyboard :=
  (districts.map (fun d => [⟨d, "mandi_district_" ++ d⟩]))
    ++ [[⟨"⬅️ Back to Menu", "main_menu"⟩]]

/-- `show_mandi_districts_menu` of `app.py`. -/
def show_mandi_districts_menu : List Effect :=
  [.edited "📊 Please select a district:" (some districtMenuKeyboard)]

/-- `button_click` of `app.py`: answers the callback, unconditionally pops
`user_data['state']`, then branches on the payload string exactly as the
`if`/`elif` chain does.  Returns the final conversation state and the
effect trace.  The incoming state `st` is ignored because the code pops it
before any branch. -/
def button_click (catalog : MandiData) (st : Option String) (data : String) :
    Option String × List Effect :=
  let _ := st
  if data = "crop_info" then
    (some "awaiting_crop",
     [.answered, .edited "🌾 Please enter the name of the crop (e.g., Tomato):" none])
  else if data = "weather_info" then
    (some "awaiting_location",
     [.answered, .edited "🌍 Please enter your city or location for the forecast:" none])
  else if data = "mandi_prices_menu" then
    (none, .answered :: show_mandi_districts_menu)
  else if pyStartsWith data "mandi_district_" then
    let district_name := pyReplace data "mandi_district_" ""
    let mandi_data := get_mandi_data_by_district catalog district_name
    let formatted_data := format_mandi_data_simple mandi_data
    (none,
     [.answered, .edited "⏳ Fetching data, please wait..." none,
      .invokedMandi district_name,
      .edited formatted_data (some [[⟨"⬅️ Back to Districts", "mandi_prices_menu"⟩]])])
  else if data = "contact_support" then
    (none,
     [.answered,
      .edited "📞 *Support*\n\nFor issues, please contact support@myagribot.dev."
        (some [[⟨"⬅️ Back to Menu", "main_menu"⟩]])])
  else if data = "main_menu" then
    (none, .answered :: show_main_menu_from_callback)
  else
    (none, [.answered])

/-- The guidance reply `handle_message` sends when no state is pending. -/
def guidanceText : String := "I'm not sure what you mean. Use /start to see the main menu."

/-- `handle_message` of `app.py`: the adapters are passed as oracles giving
the string each would return for the user's text.  Python's `if not state:`
treats both an absent key and an empty string as "no state pending"; in
both cases the handler replies with the guidance text and leaves the state
untouched.  Otherwise it acknowledges, calls the adapter selected by the
state string (or builds the fallback text), deletes the state and replies,
then re-renders the main menu via the message branch of `show_main_menu`. -/
def handle_message (cropApi weatherApi : String → String)
    (st : Option String) (text : String) : Option String × List Effect :=
  match st with
  | none => (none, [.replied guidanceText none])
  | some state =>
    if state = "" then (some "", [.replied guidanceText none])
    else
      let ack := Effect.replied ("⏳ Searching for `" ++ text ++ "`...") none
      let pair :=
        if state = "awaiting_crop" then (cropApi text, [Effect.invokedCrop text])
        else if state = "awaiting_location" then (weatherApi text, [Effect.invokedWeather text])
        else ("Something went wrong. Please start over with /start.", ([] : List Effect))
      (none, ack :: pair.2 ++ [Effect.replied pair.1 none] ++ show_main_menu_from_message)

/-- The crop-adapter invocation arguments recorded in a trace, in order. -/
def cropInvocations (tr : List Effect) : List String :=
  tr.filterMap (fun e => match e with | .invokedCrop q => some q | _ => none)

/-- The weather-adapter invocation arguments recorded in a trace, in order. -/
def weatherInvocations (tr : List Effect) : List String :=
  tr.filterMap (fun e => match e with | .invokedWeather q => some q | _ => none)

/-- The message sends and edits recorded in a trace, in order. -/
def messageEffects (tr : List Effect) : List Effect :=
  tr.filter (fun e => match e with | .edited _ _ => true | .replied _ _ => true | _ => false)

/-! ## Helper lemmas -/

/-- Folding `+=` of rendered pieces over a list equals the initial string
followed by the join of the individually rendered pieces. -/
theorem foldl_append_eq_join {α : Type} (f : α → String) (l : List α) (m : String) :
    l.foldl (fun acc x => acc ++ f x) m = m ++ String.join (l.map f) := by
  apply String.ext
  rw [String.data_append, String.data_join]
  induction l generalizing m with
  | nil => simp
  | cons a t ih =>
    rw [List.foldl_cons, ih]
    simp [String.data_append, List.append_assoc]

/-- The `mandi_district_`-prefixed branch of `button_click`, for any payload
that misses the three string-equality branches tried before it. -/
theorem button_click_mandi_branch (catalog : MandiData) (st : Option String) (data : String)
    (h1 : data ≠ "crop_info") (h2 : data ≠ "weather_info") (h3 : data ≠ "mandi_prices_menu")
    (h4 : pyStartsWith data "mandi_district_" = true) :
    button_click catalog st data =
      (none,
       [.answered, .edited "⏳ Fetching data, please wait..." none,
        .invokedMandi (pyReplace data "mandi_district_" ""),
        .edited
          (format_mandi_data_simple
            (get_mandi_data_by_district catalog (pyReplace data "mandi_district_" "")))
          (some [[⟨"⬅️ Back to Districts", "mandi_prices_menu"⟩]])]) := by
  simp [button_click, h1, h2, h3, h4]

/-- District-payload facts needed by the round-trip claim, checked for each
of the fifteen districts: decoding recovers the district name, the payload
is distinct from the three payload literals matched earlier in the
`if`/`elif` chain, and the prefix test succeeds. -/
theorem district_payload_facts : ∀ d ∈ districts,
    pyReplace ("mandi_district_" ++ d) "mandi_district_" "" = d
    ∧ ("mandi_district_" ++ d) ≠ "crop_info"
    ∧ ("mandi_district_" ++ d) ≠ "weather_info"
    ∧ ("mandi_district_" ++ d) ≠ "mandi_prices_menu"
    ∧ pyStartsWith ("mandi_district_" ++ d) "mandi_district_" = true := by decide

/-! ## Claim theorems -/

/-- C1: every button selection first resets the conversation state (the
result of `button_click` does not depend on the incoming state at all,
because the handler pops it before branching); the crop-info payload then
sets the state to the crop-awaiting marker (`'awaiting_crop'` in the code,
`awaiting_crop_name` in the spec), the weather-info payload sets it to
`'awaiting_location'`, and every other payload leaves the final state
`none`. -/
theorem button_click_resets_then_sets_state
    (catalog : MandiData) (st st' : Option String) (data : String) :
    button_click catalog st data = button_click catalog st' data
    ∧ (data = "crop_info" → (button_click catalog st data).1 = some "awaiting_crop")
    ∧ (data = "weather_info" → (button_click catalog st data).1 = some "awaiting_location")
    ∧ (data ≠ "crop_info" → data ≠ "weather_info" →
        (button_click catalog st data).1 = none) := by
  refine ⟨rfl, fun h => by subst h; rfl, fun h => by subst h; rfl, fun h1 h2 => ?_⟩
  simp only [button_click]
  rw [if_neg h1, if_neg h2]
  split_ifs <;> rfl

/-- Witness for C1 at concrete payloads and states. -/
theorem button_click_resets_then_sets_state_witness :
    (button_click ⟨[]⟩ (some "awaiting_location") "crop_info").1 = some "awaiting_crop"
    ∧ (button_click ⟨[]⟩ (some "x") "weather_info").1 = some "awaiting_location"
    ∧ (button_click ⟨[]⟩ (some "awaiting_crop") "main_menu").1 = none :=
  ⟨(button_click_resets_then_sets_state ⟨[]⟩ (some "awaiting_location") none "crop_info").2.1 rfl,
   (button_click_resets_then_sets_state ⟨[]⟩ (some "x") none "weather_info").2.2.1 rfl,
   (button_click_resets_then_sets_state ⟨[]⟩ (some "awaiting_crop") none "main_menu").2.2.2
     (by decide) (by decide)⟩

/-- C2: with a pending crop-name state (`'awaiting_crop'`, the spec's
`awaiting_crop_name`) the free-text handler invokes the crop adapter with
the message text exactly once and the weather adapter never, ends with the
state cleared to `none` whatever string the adapter returns, and re-renders
the main menu as the final message; symmetrically for the pending location
state and the weather adapter. -/
theorem handle_message_pending_state_roundtrip
    (cropApi weatherApi : String → String) (text : String) :
    ((handle_message cropApi weatherApi (some "awaiting_crop") text).1 = none
      ∧ cropInvocations (handle_message cropApi weatherApi (some "awaiting_crop") text).2 = [text]
      ∧ weatherInvocations (handle_message cropApi weatherApi (some "awaiting_crop") text).2 = []
      ∧ (handle_message cropApi weatherApi (some "awaiting_crop") text).2.getLast?
          = some (Effect.replied mainMenuText (some mainMenuKeyboard)))
    ∧ ((handle_message cropApi weatherApi (some "awaiting_location") text).1 = none
      ∧ weatherInvocations (handle_message cropApi weatherApi (some "awaiting_location") text).2
          = [text]
      ∧ cropInvocations (handle_message cropApi weatherApi (some "awaiting_location") text).2 = []
      ∧ (handle_message cropApi weatherApi (some "awaiting_location") text).2.getLast?
          = some (Effect.replied mainMenuText (some mainMenuKeyboard))) :=
  ⟨⟨rfl, rfl, rfl, rfl⟩, ⟨rfl, rfl, rfl, rfl⟩⟩

/-- C3: the summary formatter returns exactly the fixed no-data message on
an empty record list; on a non-empty list it returns the stripped
concatenation of the header naming the first record's district, exactly
`min(L, 5)` rendered record blocks, and the overflow note stating exactly
`L - 5` omitted records if and only if `L > 5`. -/
theorem format_mandi_data_simple_shape :
    format_mandi_data_simple ⟨[]⟩ = "❌ No data found for this district."
    ∧ ∀ (r : MarketRecord) (rest : List MarketRecord),
        format_mandi_data_simple ⟨r :: rest⟩ =
          pyStrip (mandiHeader r.district
            ++ String.join (((r :: rest).take 5).map mandiBlock)
            ++ (if 5 < (r :: rest).length then mandiMoreNote ((r :: rest).length - 5) else ""))
        ∧ (((r :: rest).take 5).map mandiBlock).length = min ((r :: rest).length) 5 := by
  refine ⟨rfl, fun r rest => ⟨?_, ?_⟩⟩
  · have h1 : format_mandi_data_simple ⟨r :: rest⟩ =
        pyStrip (if 5 < (r :: rest).length then
            ((r :: rest).take 5).foldl (fun m rec => m ++ mandiBlock rec) (mandiHeader r.district)
              ++ mandiMoreNote ((r :: rest).length - 5)
          else
            ((r :: rest).take 5).foldl (fun m rec => m ++ mandiBlock rec)
              (mandiHeader r.district)) := rfl
    rw [h1, foldl_append_eq_join]
    congr 1
    split
    · rfl
    · exact (String.append_empty _).symm
  · simp [List.length_take]
    omega

/-- C4: the district filter keeps exactly the records whose stored district
equals the queried one after stripping and lowering on both sides, never
returns more records than the catalog holds, and returns the empty list
(not an error) exactly when no record matches. -/
theorem get_mandi_data_by_district_characterization (catalog : MandiData) (district : String) :
    (get_mandi_data_by_district catalog district).records.length ≤ catalog.records.length
    ∧ (∀ r : MarketRecord,
        r ∈ (get_mandi_data_by_district catalog district).records
          ↔ r ∈ catalog.records
            ∧ pyLower (pyStrip r.district) = pyLower (pyStrip district))
    ∧ ((get_mandi_data_by_district catalog district).records = []
        ↔ ∀ r ∈ catalog.records,
            pyLower (pyStrip r.district) ≠ pyLower (pyStrip district)) := by
  refine ⟨List.length_filter_le _ _, fun r => ?_, ?_⟩
  · simp [get_mandi_data_by_district, List.mem_filter]
  · simp [get_mandi_data_by_district, List.filter_eq_nil_iff]

/-- C5 counterexample: on a success response whose first result lacks the
`description` key, the code renders the `.get` default `"N/A"`, not the
claimed substitution "Not available." for a missing field. -/
theorem get_crop_info_missing_field_counterexample :
    get_crop_info (CropHttp.success
        [⟨JField.str "Tomato", JField.absent, JField.str "Full sun", JField.str "Direct seed"⟩])
      = "🌾 *Tomato*\n\n📌 *Description:* N/A\n☀️ *Sun Requirements:* Full sun\n🌱 *Sowing Method:* Direct seed"
    ∧ get_crop_info (CropHttp.success
        [⟨JField.str "Tomato", JField.absent, JField.str "Full sun", JField.str "Direct seed"⟩])
      ≠ "🌾 *" ++ specFieldText (JField.str "Tomato") ++ "*\n\n"
          ++ "📌 *Description:* " ++ specFieldText JField.absent ++ "\n"
          ++ "☀️ *Sun Requirements:* " ++ specFieldText (JField.str "Full sun") ++ "\n"
          ++ "🌱 *Sowing Method:* " ++ specFieldText (JField.str "Direct seed") :=
  ⟨by decide, by decide⟩

/-- C5 amended: on success with at least one result the text is built from
the first result's four fields, where a description, sun-requirement or
sowing-method field that is present but null or empty is replaced by
"Not available.", a field whose key is absent renders as the `.get`
default `"N/A"`, and the name renders verbatim (`"N/A"` when absent,
`"None"` when null), never as "Not available.". -/
theorem get_crop_info_field_rendering (crop : CropAttrs) (rest : List CropAttrs) :
    get_crop_info (CropHttp.success (crop :: rest)) =
      "🌾 *" ++ renderName crop.name ++ "*\n\n"
        ++ "📌 *Description:* " ++ renderDetail crop.description ++ "\n"
        ++ "☀️ *Sun Requirements:* " ++ renderDetail crop.sun_requirements ++ "\n"
        ++ "🌱 *Sowing Method:* " ++ renderDetail crop.sowing_method := by
  obtain ⟨n, d, s, w⟩ := crop
  cases n <;> cases d <;> cases s <;> cases w <;>
    simp [get_crop_info, dictGet, PyVal.interp, PyVal.orDefault, renderName, renderDetail]

/-- C6: on a transport error or non-success HTTP status, each adapter
returns exactly its fixed failure string; in the embedding both adapters
are total on that outcome, so no exception reaches the caller. -/
theorem adapters_failure_fixed_messages :
    get_crop_info CropHttp.failure
      = "❌ Failed to fetch crop information. The API might be down or your request failed."
    ∧ get_detailed_weather WeatherHttp.failure
      = some "❌ Unable to fetch weather. Please check the city name or try again." :=
  ⟨rfl, rfl⟩

/-- C7: with no pending state, a free-text message yields exactly the
generic guidance reply, invokes neither adapter, and keeps the state
`none`. -/
theorem handle_message_none_state_guidance
    (cropApi weatherApi : String → String) (text : String) :
    handle_message cropApi weatherApi none text
      = (none, [Effect.replied guidanceText none])
    ∧ cropInvocations (handle_message cropApi weatherApi none text).2 = []
    ∧ weatherInvocations (handle_message cropApi weatherApi none text).2 = [] :=
  ⟨rfl, rfl, rfl⟩

/-- C8: every record generated from admissible random draws has its three
prices inside the documented ranges and the constant arrival date and
state name; and the ordering `min ≤ modal ≤ max` is not enforced: some
admissible draw produces a record whose modal price lies outside
`[min_price, max_price]`. -/
theorem generateRecords_price_ranges_and_no_ordering :
    (∀ draws : List Draw, (∀ d ∈ draws, admissibleDraw d) →
      ∀ r ∈ generateRecords draws,
        1000 ≤ r.min_price ∧ r.min_price ≤ 5000
        ∧ 5001 ≤ r.max_price ∧ r.max_price ≤ 10000
        ∧ 3000 ≤ r.modal_price ∧ r.modal_price ≤ 8000
        ∧ r.arrival_date = "18/03/2025" ∧ r.state = "Tamil Nadu")
    ∧ (∃ d : Draw, admissibleDraw d
        ∧ ((mkRecord d).modal_price < (mkRecord d).min_price
            ∨ (mkRecord d).max_price < (mkRecord d).modal_price)) := by
  constructor
  · intro draws h r hr
    obtain ⟨d, hd, rfl⟩ := List.mem_map.mp hr
    obtain ⟨_, _, _, _, h5, h6, h7, h8, h9, h10⟩ := h d hd
    exact ⟨h5, h6, h7, h8, h9, h10, rfl, rfl⟩
  · exact ⟨⟨"Chennai", "Market A", "Tomato", "Local", 5000, 5001, 3000⟩, by decide, by decide⟩

/-- Witness for C8 at a concrete one-draw dataset. -/
theorem generateRecords_price_ranges_witness :
    1000 ≤ (mkRecord ⟨"Chennai", "Market A", "Tomato", "Local", 1200, 6000, 4500⟩).min_price
    ∧ (mkRecord ⟨"Chennai", "Market A", "Tomato", "Local", 1200, 6000, 4500⟩).min_price ≤ 5000
    ∧ 5001 ≤ (mkRecord ⟨"Chennai", "Market A", "Tomato", "Local", 1200, 6000, 4500⟩).max_price
    ∧ (mkRecord ⟨"Chennai", "Market A", "Tomato", "Local", 1200, 6000, 4500⟩).max_price ≤ 10000
    ∧ 3000 ≤ (mkRecord ⟨"Chennai", "Market A", "Tomato", "Local", 1200, 6000, 4500⟩).modal_price
    ∧ (mkRecord ⟨"Chennai", "Market A", "Tomato", "Local", 1200, 6000, 4500⟩).modal_price ≤ 8000
    ∧ (mkRecord ⟨"Chennai", "Market A", "Tomato", "Local", 1200, 6000, 4500⟩).arrival_date
        = "18/03/2025"
    ∧ (mkRecord ⟨"Chennai", "Market A", "Tomato", "Local", 1200, 6000, 4500⟩).state
        = "Tamil Nadu" :=
  generateRecords_price_ranges_and_no_ordering.1
    [⟨"Chennai", "Market A", "Tomato", "Local", 1200, 6000, 4500⟩] (by decide)
    (mkRecord ⟨"Chennai", "Market A", "Tomato", "Local", 1200, 6000, 4500⟩) (by decide)

/-- C9: a button payload outside the recognized set falls through every
branch of the `if`/`elif` chain: the callback is answered but no message is
sent or edited and no query is invoked. -/
theorem button_click_unrecognized_silent
    (catalog : MandiData) (st : Option String) (data : String)
    (h1 : data ≠ "crop_info") (h2 : data ≠ "weather_info") (h3 : data ≠ "mandi_prices_menu")
    (h4 : pyStartsWith data "mandi_district_" = false)
    (h5 : data ≠ "contact_support") (h6 : data ≠ "main_menu") :
    (button_click catalog st data).2 = [Effect.answered]
    ∧ messageEffects (button_click catalog st data).2 = [] := by
  refine ⟨?_, ?_⟩ <;> simp [button_click, h1, h2, h3, h4, h5, h6, messageEffects]

/-- Witness for C9 at a concrete unrecognized payload. -/
theorem button_click_unrecognized_silent_witness :
    (button_click ⟨[]⟩ none "hello").2 = [Effect.answered]
    ∧ messageEffects (button_click ⟨[]⟩ none "hello").2 = [] :=
  button_click_unrecognized_silent ⟨[]⟩ none "hello"
    (by decide) (by decide) (by decide) (by decide) (by decide) (by decide)

/-- C10: for every district in the fixed list, the district menu carries a
button labelled with the district whose payload is `mandi_district_`
followed by the name, decoding that payload recovers exactly the district
name, and clicking it makes `button_click` invoke the market query with
precisely that name. -/
theorem district_payload_roundtrip (d : String) (hd : d ∈ districts) :
    [Button.mk d ("mandi_district_" ++ d)] ∈ districtMenuKeyboard
    ∧ pyReplace ("mandi_district_" ++ d) "mandi_district_" "" = d
    ∧ ∀ (catalog : MandiData) (st : Option String),
        Effect.invokedMandi d ∈ (button_click catalog st ("mandi_district_" ++ d)).2 := by
  obtain ⟨hrep, hne1, hne2, hne3, hpre⟩ := district_payload_facts d hd
  refine ⟨List.mem_append_left _ (List.mem_map_of_mem _ hd), hrep, fun catalog st => ?_⟩
  rw [button_click_mandi_branch catalog st _ hne1 hne2 hne3 hpre, hrep]
  exact List.mem_cons_of_mem _ (List.mem_cons_of_mem _ (List.mem_cons_self _ _))

/-- Witness for C10 at the district "Chennai" and an empty catalog. -/
theorem district_payload_roundtrip_witness :
    [Button.mk "Chennai" ("mandi_district_" ++ "Chennai")] ∈ districtMenuKeyboard
    ∧ pyReplace ("mandi_district_" ++ "Chennai") "mandi_district_" "" = "Chennai"
    ∧ Effect.invokedMandi "Chennai"
        ∈ (button_click ⟨[]⟩ none ("mandi_district_" ++ "Chennai")).2 :=
  ⟨(district_payload_roundtrip "Chennai" (by decide)).1,
   (district_payload_roundtrip "Chennai" (by decide)).2.1,
   (district_payload_roundtrip "Chennai" (by decide)).2.2 ⟨[]⟩ none⟩
